import Mathlib

/-!
Shallow embedding of the OpenRouter monitor worker
(src/worker/monitor.js plus the variant monitor module, and the
scheduled/fetch handlers of src/worker/index.js).

Machine numbers in pricing fields are modelled as rationals: the only
numeric facts the monitor extracts from them are "equals 0" and
"is not 0", which floating point decides exactly for every JSON literal.
The JavaScript value NaN is modelled as `none`; it is never equal to 0.
-/

/-- A JSON pricing field value as delivered by the catalog API:
either a string or a number (wire contract, spec section 6). -/
inductive PriceVal where
  | str (s : String)
  | num (q : ℚ)
deriving DecidableEq

/-- The pricing record of a catalog entry: optional prompt cost and
optional completion cost. -/
structure Pricing where
  prompt : Option PriceVal := none
  completion : Option PriceVal := none
deriving DecidableEq

/-- A catalog entry (`model` object of the OpenRouter API response).
Only the fields the monitor reads are modelled: `id`, `name`, `pricing`.
The other fields are pass-through and never inspected. -/
structure CatalogItem where
  id : String
  name : Option String := none
  pricing : Option Pricing := none
deriving DecidableEq

/-- JavaScript `String.prototype.endsWith`: the characters of `suffix`
are the final characters of `s`.  (Spelled out on the character lists
so that it evaluates by kernel reduction.) -/
def jsEndsWith (s suffix : String) : Bool :=
  s.data.drop (s.data.length - suffix.data.length) == suffix.data

/-- Numeric value of one decimal digit character. -/
def digitVal (c : Char) : ℕ := c.toNat - 48

/-- Splits a character list into its longest leading run of decimal
digits and the remainder. -/
def splitDigits : List Char → List Char × List Char
  | [] => ([], [])
  | c :: cs =>
    if c.isDigit then
      let r := splitDigits cs
      (c :: r.1, r.2)
    else ([], c :: cs)

/-- The natural number denoted by a list of digit characters
(empty list denotes 0, as in `parseFloat` of "0"-defaulted fields). -/
def natOfDigits (ds : List Char) : ℕ := ds.foldl (fun a c => a * 10 + digitVal c) 0

/-- Consumes an optional leading sign; returns true when negative. -/
def parseSign : List Char → Bool × List Char
  | '-' :: cs => (true, cs)
  | '+' :: cs => (false, cs)
  | cs => (false, cs)

/-- Parses an optional exponent part `e`/`E` sign digits.  Following
JavaScript `parseFloat` longest-valid-prefix behaviour, a malformed
exponent contributes nothing (exponent 0). -/
def parseExponent (cs : List Char) : Int :=
  match cs with
  | c :: rest =>
    if c == 'e' || c == 'E' then
      let sr := parseSign rest
      let dr := splitDigits sr.2
      if dr.1.isEmpty then 0
      else if sr.1 then -(natOfDigits dr.1 : Int) else (natOfDigits dr.1 : Int)
    else 0
  | [] => 0

/-- JavaScript `parseFloat` on a character sequence: skip leading
whitespace, optional sign, decimal mantissa, optional exponent;
`none` models NaN (no numeric prefix at all).  `Infinity` results are
abstracted into `none` as well: like NaN they are never equal to 0,
which is the only question the monitor ever asks of the result. -/
def parseFloatChars (cs : List Char) : Option ℚ :=
  let cs1 := cs.dropWhile (fun c => c.isWhitespace)
  let sg := parseSign cs1
  let ir := splitDigits sg.2
  let fr : List Char × List Char :=
    match ir.2 with
    | '.' :: rest => splitDigits rest
    | _ => ([], ir.2)
  if ir.1.isEmpty && fr.1.isEmpty then none
  else
    let mant : ℚ := (natOfDigits ir.1 : ℚ) + (natOfDigits fr.1 : ℚ) / (10 : ℚ) ^ fr.1.length
    let e := parseExponent fr.2
    let v := mant * (10 : ℚ) ^ e
    some (if sg.1 then -v else v)

/-- JavaScript `parseFloat` on a string. -/
def parseFloatStr (s : String) : Option ℚ := parseFloatChars s.data

/-- Embeds `parseFloat(field || '0')` from `identifyFreeModels`
(src/worker/monitor.js line 123): a missing field, the empty string and
the number 0 are falsy and replaced by the string "0"; a number is
otherwise returned unchanged (`parseFloat` round-trips every finite
JSON number); a non-empty string goes through `parseFloat`. -/
def parsePriceField (f : Option PriceVal) : Option ℚ :=
  match f with
  | none => some 0
  | some (.str s) => if s = "" then some 0 else parseFloatStr s
  | some (.num q) => some q

/-- The free-model predicate of `identifyFreeModels`
(src/worker/monitor.js lines 114-134): the body of the `filter`
callback.  Rule 1: truthy `model.id` ending in ":free".  Rule 2:
pricing present and both parsed prices strictly equal to 0
(NaN, modelled as `none`, is not equal to 0). -/
def isFree (m : CatalogItem) : Bool :=
  if ¬ m.id = "" ∧ jsEndsWith m.id ":free" then
    true
  else
    match m.pricing with
    | some pr =>
      let promptPrice := parsePriceField pr.prompt
      let completionPrice := parsePriceField pr.completion
      if promptPrice = some 0 ∧ completionPrice = some 0 then true else false
    | none => false

/-- Embeds `identifyFreeModels` (src/worker/monitor.js lines 114-134):
order-preserving filter of the model list by the free predicate. -/
def identifyFreeModels (models : List CatalogItem) : List CatalogItem :=
  models.filter isFree

/-- Reference predicate written from the claim text (three rules,
first match wins): suffix ":free" regardless of pricing; otherwise
pricing present and both cost fields parse to the numeric value 0;
otherwise false.  Used only to compare against `isFree`. -/
def isFreeReference (m : CatalogItem) : Bool :=
  if jsEndsWith m.id ":free" then true
  else
    match m.pricing with
    | some pr =>
      if parsePriceField pr.prompt = some 0 ∧ parsePriceField pr.completion = some 0 then
        true
      else false
    | none => false

/-- Display name used in notification messages: `model.name || model.id`
(falsy name, i.e. absent or empty, falls back to the id). -/
def modelDisplayName (m : CatalogItem) : String :=
  match m.name with
  | some n => if n = "" then m.id else n
  | none => m.id

/-- Embeds the `addedModels` computation of `detectAndNotifyChanges` (src/worker/monitor.js
lines 165-179): current free models whose id is in no previous free
model. -/
def addedModels (previousFree currentFree : List CatalogItem) : List CatalogItem :=
  currentFree.filter (fun m => ! previousFree.any (fun p => p.id == m.id))

/-- Embeds the `removedModels` computation of `detectAndNotifyChanges`: previous free models
whose id is in no current free model. -/
def removedModels (previousFree currentFree : List CatalogItem) : List CatalogItem :=
  previousFree.filter (fun m => ! currentFree.any (fun c => c.id == m.id))

/-- Bark notification categories used by the worker. -/
inductive NotifCategory where
  | update
  | error
  | default
deriving DecidableEq

/-- Observable actions of one monitoring run, in execution order:
the outbound catalog fetch, the two snapshot-store writes, the
scheduled handler's trigger-timestamp write, and one outbound Bark
notification call. -/
inductive MonitorEvent where
  | fetchModels
  | putModels
  | putLastUpdate
  | putTrigger (t : Int)
  | notify (title body : String) (category : NotifCategory)
deriving DecidableEq

/-- Outcome of the outbound catalog request, supplied as an input to a
run: a successful JSON body (its `data` list), a non-success HTTP
status, or a network failure. -/
inductive FetchOutcome where
  | ok (models : List CatalogItem)
  | httpError (status : ℕ) (statusText : String)
  | networkError (message : String)
deriving DecidableEq

/-- Embeds `fetchOpenRouterModels` (src/worker/monitor.js lines 84-106):
returns `data.data` on success and throws
`OpenRouter API error: status statusText` on a non-ok response; a
rejected fetch propagates its own message. -/
def fetchOpenRouterModels : FetchOutcome → Except String (List CatalogItem)
  | .ok models => .ok models
  | .httpError status statusText =>
      .error ("OpenRouter API error: " ++ toString status ++ " " ++ statusText)
  | .networkError message => .error message

/-- Outcome of the two `kv.put` calls of `storeModelsData`: both
succeed, the first fails (nothing written), or the second fails (the
snapshot written, the timestamp not). -/
inductive PutResult where
  | ok
  | failFirst (msg : String)
  | failSecond (msg : String)
deriving DecidableEq

/-- The snapshot object persisted under `models_data`
(src/worker/monitor.js lines 34-39).  Timestamps are the parsed
millisecond instants of the ISO strings the worker writes
(`toISOString` and `Date.parse` are inverse on them). -/
structure Snapshot where
  timestamp : Int
  totalModels : ℕ
  freeModels : List CatalogItem
  allModels : List CatalogItem
deriving DecidableEq

/-- The keys of the worker's KV namespace that the monitoring and
scheduling code touches.  `app_settings_interval` and
`app_settings_barkUrl` model the parsed `monitorInterval` and
`barkBaseUrl` fields of the stored `app_settings` JSON (absent when the
key is missing, unparsable, or the field is falsy). -/
structure KVStore where
  models_data : Option Snapshot := none
  last_update : Option Int := none
  last_monitor_trigger : Option Int := none
  app_settings_interval : Option Int := none
  app_settings_barkUrl : Option String := none
deriving DecidableEq

/-- Worker environment bindings read by the monitor. -/
structure MonitorEnv where
  barkUrl : Option String := none
deriving DecidableEq

/-- External nondeterminism of one run: the catalog fetch outcome, a
flag making the `models_data` read throw, the outcome of the two
snapshot writes, the run timestamp, and the HTTP outcomes of the Bark
delivery for the change notification and for the error notification
(a failed delivery carries status and statusText). -/
structure RunWorld where
  fetchOutcome : FetchOutcome
  readPrevFails : Bool := false
  putResult : PutResult := .ok
  now : Int
  changeDelivery : Except (ℕ × String) Unit := .ok ()
  errorDelivery : Except (ℕ × String) Unit := .ok ()

/-- Embeds `getPreviousModelsData` (src/worker/monitor.js lines 139-147): a
`kv.get` / `JSON.parse` failure is caught and returned as `null`; a
missing key is also `null`. -/
def getPreviousModelsData (w : RunWorld) (kv : KVStore) : Option Snapshot :=
  if w.readPrevFails then none else kv.models_data

/-- Embeds `storeModelsData` (src/worker/monitor.js lines 152-160): writes the
snapshot, then the `last_update` timestamp; a failure is rethrown with
the kv error message and leaves the remaining writes undone. -/
def storeModelsData (data : Snapshot) (kv : KVStore) :
    PutResult → Option String × KVStore × List MonitorEvent
  | .ok =>
      (none,
       { kv with models_data := some data, last_update := some data.timestamp },
       [.putModels, .putLastUpdate])
  | .failFirst msg => (some msg, kv, [])
  | .failSecond msg =>
      (some msg, { kv with models_data := some data }, [.putModels])

/-- The JSON body of the failure `Response` of `runMonitoring`
(success false, HTTP 500) and of the success `Response` (HTTP 200). -/
structure RunResponse where
  success : Bool
  error : Option String := none
  totalModels : Option ℕ := none
  freeModels : Option ℕ := none
  status : ℕ
deriving DecidableEq

/-- The success payload of `runMonitoring` (lines 48-56). -/
def successResponse (total free : ℕ) : RunResponse :=
  { success := true, totalModels := some total, freeModels := some free, status := 200 }

/-- The failure payload of `runMonitoring` (lines 70-77). -/
def errorResponse (msg : String) : RunResponse :=
  { success := false, error := some msg, status := 500 }

/-- The message body built by `sendChangeNotification`
(src/worker/monitor.js lines 184-208).  The JavaScript source writes
the two characters backslash-n (an escaped backslash in a single-quoted
literal), reproduced here verbatim. -/
def changeMessage (added removed : List CatalogItem) : String :=
  let base := "OpenRouter Free Models Update:\\n\\n"
  let base :=
    if added.length > 0 then
      base ++ "✅ Added (" ++ toString added.length ++ "):\\n" ++
        String.join (added.map (fun m => "• " ++ modelDisplayName m ++ "\\n")) ++ "\\n"
    else base
  if removed.length > 0 then
    base ++ "❌ Removed (" ++ toString removed.length ++ "):\\n" ++
      String.join (removed.map (fun m => "• " ++ modelDisplayName m ++ "\\n"))
  else base

/-- Embeds `sendChangeNotification` (src/worker/monitor.js lines 184-208): a
no-op without a configured Bark URL, otherwise one Bark call whose
delivery outcome is swallowed by `sendBarkNotification`
(lines 213-234, which only logs a non-ok response). -/
def sendChangeNotification (env : MonitorEnv) (added removed : List CatalogItem) :
    List MonitorEvent :=
  match env.barkUrl with
  | none => []
  | some _ => [.notify "Free Models Changed" (changeMessage added removed) .update]

/-- Embeds `detectAndNotifyChanges` (src/worker/monitor.js lines 165-179):
computes the added and removed free models and sends one change
notification when either list is non-empty. -/
def detectAndNotifyChanges (env : MonitorEnv) (previousFree currentFree : List CatalogItem) :
    List MonitorEvent :=
  let added := addedModels previousFree currentFree
  let removed := removedModels previousFree currentFree
  if added.length > 0 || removed.length > 0 then sendChangeNotification env added removed
  else []

/-- The error-notification attempt of the catch block of
`runMonitoring` (lines 62-68): one Bark call when a Bark URL is
configured (delivery failures are swallowed in this module). -/
def monitorErrorEvents (env : MonitorEnv) (msg : String) : List MonitorEvent :=
  match env.barkUrl with
  | some _ => [.notify "OpenRouter Monitor Error" ("Monitoring failed: " ++ msg) .error]
  | none => []

/-- Embeds `runMonitoring` of src/worker/monitor.js (lines 16-79): fetch,
reject an empty model list, read the previous snapshot (degrading to
none), classify, persist, then diff-and-notify when a previous
snapshot with a `freeModels` field exists.  Returns the response body,
the updated store, and the events in execution order. -/
def runMonitoring (env : MonitorEnv) (w : RunWorld) (kv : KVStore) :
    RunResponse × KVStore × List MonitorEvent :=
  match fetchOpenRouterModels w.fetchOutcome with
  | .error msg => (errorResponse msg, kv, .fetchModels :: monitorErrorEvents env msg)
  | .ok models =>
    if models.length = 0 then
      let msg := "No models received from OpenRouter API"
      (errorResponse msg, kv, .fetchModels :: monitorErrorEvents env msg)
    else
      let previousData := getPreviousModelsData w kv
      let currentFreeModels := identifyFreeModels models
      let snap : Snapshot :=
        { timestamp := w.now, totalModels := models.length,
          freeModels := currentFreeModels, allModels := models }
      match storeModelsData snap kv w.putResult with
      | (some msg, kv1, evs) =>
          (errorResponse msg, kv1, .fetchModels :: (evs ++ monitorErrorEvents env msg))
      | (none, kv1, evs) =>
        let notifEvs :=
          match previousData with
          | some prev => detectAndNotifyChanges env prev.freeModels currentFreeModels
          | none => []
        (successResponse models.length currentFreeModels.length, kv1,
         .fetchModels :: (evs ++ notifEvs))

/-- Bark target resolution of the variant monitor module's
`sendChangeNotification`: the `BARK_API_URL` binding when truthy,
otherwise the `barkBaseUrl` of the stored settings. -/
def resolveBarkUrl (env : MonitorEnv) (kv : KVStore) : Option String :=
  match env.barkUrl with
  | some u => some u
  | none => kv.app_settings_barkUrl

/-- Embeds `sendBarkNotification` of the variant monitor module (lines
297-322): issues the Bark call, and on a non-ok response logs and
rethrows the message built from status and statusText.  The call
itself always happens, so the notify event is recorded in either
case. -/
def sendBarkNotificationV (delivery : Except (ℕ × String) Unit)
    (title body : String) (category : NotifCategory) :
    Option String × List MonitorEvent :=
  match delivery with
  | .ok _ => (none, [.notify title body category])
  | .error (status, statusText) =>
      (some ("Bark 推送失败: " ++ toString status ++ " " ++ statusText),
       [.notify title body category])

/-- The message body built by the variant module's
`sendChangeNotification` (lines 196-220): the added and removed names
joined by commas inside two clauses, the clauses joined by a
full-width semicolon, each clause omitted when its list is empty. -/
def changeMessageV (added removed : List CatalogItem) : String :=
  let parts :=
    (if added.length > 0 then
       ["新增免费模型：" ++ String.intercalate "," (added.map modelDisplayName)]
     else []) ++
    (if removed.length > 0 then
       ["失效免费模型：" ++ String.intercalate "," (removed.map modelDisplayName)]
     else [])
  String.intercalate "；" parts

/-- Embeds `sendChangeNotification` of the variant monitor module (lines
184-231): resolves the Bark target from the environment or the stored
settings, skips silently when none is configured, and otherwise sends
one Bark call whose failure is rethrown (the temporarily swapped
instance field is restored by the finally block, which does not stop
the propagation). -/
def sendChangeNotificationV (env : MonitorEnv) (kv : KVStore) (w : RunWorld)
    (added removed : List CatalogItem) : Option String × List MonitorEvent :=
  match resolveBarkUrl env kv with
  | none => (none, [])
  | some _ =>
      sendBarkNotificationV w.changeDelivery "OpenRouter免费模型更新"
        (changeMessageV added removed) .update

/-- Embeds `detectAndNotifyChanges` of the variant monitor module: identical
diff computation; the notification error, if any, propagates. -/
def detectAndNotifyChangesV (env : MonitorEnv) (kv : KVStore) (w : RunWorld)
    (previousFree currentFree : List CatalogItem) : Option String × List MonitorEvent :=
  let added := addedModels previousFree currentFree
  let removed := removedModels previousFree currentFree
  if added.length > 0 || removed.length > 0 then
    sendChangeNotificationV env kv w added removed
  else (none, [])

/-- Result of one invocation of the variant module's `runMonitoring`:
either a returned response, or an exception that escaped the catch
block (possible there because its error notification rethrows). -/
structure RunOutcomeV where
  thrown : Option String := none
  response : Option RunResponse := none
  kv : KVStore
  events : List MonitorEvent
deriving DecidableEq

/-- The catch block of the variant module's `runMonitoring` (lines
58-78): logs, attempts an error notification when `BARK_API_URL` is
configured — whose own failure escapes the function — and otherwise
returns the failure response. -/
def monitorCatchV (env : MonitorEnv) (w : RunWorld) (msg : String)
    (kv : KVStore) (evs : List MonitorEvent) : RunOutcomeV :=
  match env.barkUrl with
  | none => { response := some (errorResponse msg), kv := kv, events := evs }
  | some _ =>
    match sendBarkNotificationV w.errorDelivery "OpenRouter Monitor Error"
        ("Monitoring failed: " ++ msg) .error with
    | (none, evs2) =>
        { response := some (errorResponse msg), kv := kv, events := evs ++ evs2 }
    | (some msg2, evs2) => { thrown := some msg2, kv := kv, events := evs ++ evs2 }

/-- Embeds `runMonitoring` of the variant monitor module (lines 16-79): same
critical path as `runMonitoring`, but a change-notification delivery
failure is rethrown by `sendBarkNotification` and lands in the catch
block after the snapshot write already succeeded. -/
def runMonitoringV (env : MonitorEnv) (w : RunWorld) (kv : KVStore) : RunOutcomeV :=
  match fetchOpenRouterModels w.fetchOutcome with
  | .error msg => monitorCatchV env w msg kv [.fetchModels]
  | .ok models =>
    if models.length = 0 then
      monitorCatchV env w "No models received from OpenRouter API" kv [.fetchModels]
    else
      let previousData := getPreviousModelsData w kv
      let currentFreeModels := identifyFreeModels models
      let snap : Snapshot :=
        { timestamp := w.now, totalModels := models.length,
          freeModels := currentFreeModels, allModels := models }
      match storeModelsData snap kv w.putResult with
      | (some msg, kv1, evs) => monitorCatchV env w msg kv1 (.fetchModels :: evs)
      | (none, kv1, evs) =>
        let notified :=
          match previousData with
          | some prev => detectAndNotifyChangesV env kv w prev.freeModels currentFreeModels
          | none => (none, [])
        match notified with
        | (some msg, nevs) => monitorCatchV env w msg kv1 (.fetchModels :: (evs ++ nevs))
        | (none, nevs) =>
            { response := some (successResponse models.length currentFreeModels.length),
              kv := kv1, events := .fetchModels :: (evs ++ nevs) }

/-- One step of the timestamp loop of the `scheduled` handler
(src/worker/index.js): a parsable value replaces the accumulator when
the accumulator is unset, is 0 (falsy), or is smaller. -/
def lastRunStep (acc : Option Int) (v : Option Int) : Option Int :=
  match v with
  | none => acc
  | some p =>
    match acc with
    | none => some p
    | some l => if l = 0 ∨ l < p then some p else acc

/-- The `lastRunTimestamp` computed by the `scheduled` handler from the
parsed `last_monitor_trigger` and `last_update` values (in that order);
`none` models an absent, empty or unparsable stored value. -/
def computeLastRun (lastTrigger lastUpdate : Option Int) : Option Int :=
  lastRunStep (lastRunStep none lastTrigger) lastUpdate

/-- The interval clamp of the `scheduled` handler:
`Math.min(Math.max(intervalMinutes, 1), 60)`. -/
def clampInterval (i : Int) : Int := min (max i 1) 60

/-- The interval resolution of the `scheduled` handler before
clamping: default 5, overridden by a parsable `MONITOR_INTERVAL_MINUTES`
binding, overridden in turn by a parsable `monitorInterval` settings
field. -/
def resolveIntervalMinutes (envInterval settingsInterval : Option Int) : Int :=
  settingsInterval.getD (envInterval.getD 5)

/-- The throttle decision of the `scheduled` handler: the run proceeds
unless a truthy `lastRunTimestamp` exists whose elapsed time is below
the clamped interval in milliseconds.  A `lastRunTimestamp` of 0 is
falsy in JavaScript and therefore treated as never-run. -/
def scheduledShouldRun (now : Int) (lastTrigger lastUpdate : Option Int)
    (intervalMinutes : Int) : Bool :=
  let intervalMs := clampInterval intervalMinutes * 60 * 1000
  match computeLastRun lastTrigger lastUpdate with
  | none => true
  | some l => if l = 0 then true else decide (intervalMs ≤ now - l)

/-- Throttle algorithm written from the spec text (section 4.6), for
comparison with `scheduledShouldRun`: clamp the interval to [1,60],
take `lastRun` as the maximum of the two timestamps with absent values
treated as negative infinity, accept when `lastRun` is absent or when
`now - lastRun` is at least the interval in milliseconds. -/
def specThrottleShouldRun (now : Int) (lastTrigger lastUpdate : Option Int)
    (intervalMinutes : Int) : Bool :=
  let intervalMs := clampInterval intervalMinutes * 60 * 1000
  match lastTrigger, lastUpdate with
  | none, none => true
  | some l, none => decide (intervalMs ≤ now - l)
  | none, some l => decide (intervalMs ≤ now - l)
  | some a, some b => decide (intervalMs ≤ now - max a b)

/-- The `scheduled` handler of src/worker/index.js (lines 2995-3074 of
the bundled worker source): resolve and clamp the interval, read the
two timestamps, skip when the throttle refuses, otherwise persist
`last_monitor_trigger = now` and then run the monitor.  Returns the
updated store and the events in execution order. -/
def scheduledRun (envInterval : Option Int) (now : Int) (env : MonitorEnv)
    (w : RunWorld) (kv : KVStore) : KVStore × List MonitorEvent :=
  let intervalMinutes := resolveIntervalMinutes envInterval kv.app_settings_interval
  if scheduledShouldRun now kv.last_monitor_trigger kv.last_update intervalMinutes then
    let kv1 := { kv with last_monitor_trigger := some now }
    let out := runMonitoringV env w kv1
    (out.kv, .putTrigger now :: out.events)
  else (kv, [])

/-- The `/api/monitor/run` branch of the `fetch` handler of
src/worker/index.js: the matching path invokes `runMonitoring`
directly, with no throttle read and no trigger-timestamp write; other
paths never invoke it. -/
def fetchRouteMonitorRun (path : String) (env : MonitorEnv) (w : RunWorld)
    (kv : KVStore) : Option RunOutcomeV :=
  if path = "/api/monitor/run" then some (runMonitoringV env w kv) else none

/-- True exactly on change-notification events (Bark category
`update`); used to count delivery attempts. -/
def isUpdateNotify (e : MonitorEvent) : Bool :=
  match e with
  | .notify _ _ .update => true
  | _ => false

/-- Sample free catalog entry used to instantiate general theorems. -/
def sampleFreeItem : CatalogItem := { id := "a:free" }

/-- Sample snapshot produced by a run over `[sampleFreeItem]`. -/
def sampleSnapshot : Snapshot :=
  { timestamp := 7, totalModels := 1, freeModels := [sampleFreeItem],
    allModels := [sampleFreeItem] }

/-- Sample run inputs over `[sampleFreeItem]`. -/
def sampleRunWorld : RunWorld := { fetchOutcome := .ok [sampleFreeItem], now := 7 }

/-- Concrete environment for the notification-failure run: a Bark
target is configured. -/
def barkFailEnv : MonitorEnv := { barkUrl := some "https://bark.example/k/" }

/-- Concrete run inputs for the notification-failure run: the fetch
succeeds with one free model and the change-notification delivery
comes back HTTP 500. -/
def barkFailWorld : RunWorld :=
  { fetchOutcome := .ok [{ id := "b:free" }], now := 100,
    changeDelivery := .error (500, "Internal Server Error") }

/-- Previous snapshot of the notification-failure run: one different
free model, so the diff is non-empty. -/
def barkFailSnapshot : Snapshot :=
  { timestamp := 0, totalModels := 1,
    freeModels := [{ id := "a:free" }], allModels := [{ id := "a:free" }] }

/-- Store holding `barkFailSnapshot` before the notification-failure
run. -/
def barkFailStore : KVStore := { models_data := some barkFailSnapshot }
/-- C1: the free-item classifier `isFree` is equivalent to the
three-rule reference predicate `isFreeReference` (suffix ":free" wins
regardless of pricing; otherwise pricing present with both cost fields
parsing to 0; otherwise false), and any item with no ":free" suffix
whose prompt or completion field parses to a nonzero number is
classified not free. -/
theorem isFree_equiv_reference :
    (∀ m : CatalogItem, isFree m = isFreeReference m) ∧
    (∀ (m : CatalogItem) (pr : Pricing), m.pricing = some pr →
      jsEndsWith m.id ":free" = false →
      ((∃ q, parsePriceField pr.prompt = some q ∧ q ≠ 0) ∨
       (∃ q, parsePriceField pr.completion = some q ∧ q ≠ 0)) →
      isFree m = false) := by
  constructor
  · intro m
    unfold isFree isFreeReference
    by_cases h : m.id = ""
    · simp [h, show jsEndsWith "" ":free" = false from by decide]
    · simp [h]
  · intro m pr hpr hsuf hnz
    unfold isFree
    rw [hpr]
    have h1 : ¬(¬ m.id = "" ∧ jsEndsWith m.id ":free" = true) := by
      rintro ⟨-, h2⟩
      rw [hsuf] at h2
      exact Bool.false_ne_true h2
    rw [if_neg h1]
    rcases hnz with ⟨q, hq, hq0⟩ | ⟨q, hq, hq0⟩ <;> simp [hq, hq0]

/-- Witness for C1: a suffix-free item with prompt price 3 is not
free. -/
theorem isFree_equiv_reference_witness :
    isFree { id := "paid-model", pricing := some { prompt := some (.num 3) } } = false :=
  isFree_equiv_reference.2 _ _ rfl (by decide) (Or.inl ⟨3, rfl, by decide⟩)

/-- C2 counterexample: a malformed pricing field is not treated like an
absent field.  With `prompt := "not-a-number"` (parsing to NaN) the
item is classified not free, while the same item with the prompt field
absent (treated as 0) is classified free. -/
theorem malformed_field_counterexample :
    isFree { id := "example-model",
             pricing := some { prompt := some (.str "not-a-number"),
                               completion := some (.num 0) } } = false ∧
    isFree { id := "example-model",
             pricing := some { prompt := none,
                               completion := some (.num 0) } } = true := by
  constructor <;> decide

/-- C2 amended: a malformed (non-empty, unparsable) pricing field
parses to NaN, never to 0, so the pricing rule fails and the item is
free exactly when its id ends in ":free"; classification is total
(never throws). -/
theorem malformed_field_classification :
    (∀ (m : CatalogItem) (pr : Pricing) (s : String), m.pricing = some pr →
      (pr.prompt = some (.str s) ∨ pr.completion = some (.str s)) →
      ¬ s = "" → parseFloatStr s = none →
      isFree m = jsEndsWith m.id ":free") ∧
    (∀ m : CatalogItem, isFree m = true ∨ isFree m = false) := by
  constructor
  · intro m pr s hpr hfield hs hparse
    have hnone : parsePriceField pr.prompt = none ∨ parsePriceField pr.completion = none := by
      rcases hfield with h | h
      · left; simp [parsePriceField, h, hs, hparse]
      · right; simp [parsePriceField, h, hs, hparse]
    unfold isFree
    rw [hpr]
    have hfalse : ¬(parsePriceField pr.prompt = some 0 ∧ parsePriceField pr.completion = some 0) := by
      rcases hnone with h | h <;> simp [h]
    by_cases h1 : ¬ m.id = "" ∧ jsEndsWith m.id ":free" = true
    · rw [if_pos h1, h1.2]
    · rw [if_neg h1]
      show (if parsePriceField pr.prompt = some 0 ∧ parsePriceField pr.completion = some 0
            then true else false) = jsEndsWith m.id ":free"
      rw [if_neg hfalse]
      by_cases h2 : m.id = ""
      · rw [h2]; decide
      · have h3 : ¬ (jsEndsWith m.id ":free" = true) := fun he => h1 ⟨h2, he⟩
        rw [Bool.not_eq_true] at h3
        rw [h3]
  · intro m
    rcases Bool.eq_false_or_eq_true (isFree m) with h | h
    · exact Or.inl h
    · exact Or.inr h

/-- Witness for the amended C2 at a concrete malformed field. -/
theorem malformed_field_classification_witness :
    isFree { id := "n", pricing := some { prompt := some (.str "not-a-number") } } =
      jsEndsWith "n" ":free" :=
  malformed_field_classification.1 _ _ "not-a-number" rfl (Or.inl rfl) (by decide) (by decide)

/-- C3: the change detector computes `added` as the items of the
current sequence whose id occurs nowhere in the previous sequence and
`removed` symmetrically, both as order-preserving sublists of their
source sequences; `added` is disjoint from the previous items,
`diff(A,A)` is empty in both components, and items present in both
sides by id appear in neither output. -/
theorem diff_symmetric_difference :
    ∀ A B : List CatalogItem,
      (∀ m, m ∈ addedModels A B ↔ m ∈ B ∧ ∀ p ∈ A, ¬ p.id = m.id) ∧
      (∀ m, m ∈ removedModels A B ↔ m ∈ A ∧ ∀ c ∈ B, ¬ c.id = m.id) ∧
      List.Sublist (addedModels A B) B ∧
      List.Sublist (removedModels A B) A ∧
      (∀ m, ¬(m ∈ addedModels A B ∧ m ∈ A)) ∧
      addedModels A A = [] ∧ removedModels A A = [] ∧
      (∀ m, m ∈ B → (∃ p ∈ A, p.id = m.id) → m ∉ addedModels A B) ∧
      (∀ m, m ∈ A → (∃ c ∈ B, c.id = m.id) → m ∉ removedModels A B) := by
  intro A B
  have hadd : ∀ m, m ∈ addedModels A B ↔ m ∈ B ∧ ∀ p ∈ A, ¬ p.id = m.id := by
    intro m
    simp [addedModels, List.mem_filter, List.any_eq_true]
  have hrem : ∀ m, m ∈ removedModels A B ↔ m ∈ A ∧ ∀ c ∈ B, ¬ c.id = m.id := by
    intro m
    simp [removedModels, List.mem_filter, List.any_eq_true]
  have hself : ∀ C : List CatalogItem,
      C.filter (fun m => ! C.any (fun p => p.id == m.id)) = [] := by
    intro C
    rw [List.filter_eq_nil_iff]
    intro a ha
    simp [List.any_eq_true]
    exact ⟨a, ha, rfl⟩
  refine ⟨hadd, hrem, List.filter_sublist _, List.filter_sublist _, ?_, hself A, hself A, ?_, ?_⟩
  · rintro m ⟨hm, hmA⟩
    exact ((hadd m).mp hm).2 m hmA rfl
  · rintro m hmB ⟨p, hpA, hpid⟩ hmem
    exact ((hadd m).mp hmem).2 p hpA hpid
  · rintro m hmA ⟨c, hcB, hcid⟩ hmem
    exact ((hrem m).mp hmem).2 c hcB hcid

/-- Witness for C3: a fresh id is reported as added. -/
theorem diff_symmetric_difference_witness :
    ({ id := "c:free" } : CatalogItem) ∈ addedModels [{ id := "a:free" }] [{ id := "c:free" }] :=
  (((diff_symmetric_difference [{ id := "a:free" }] [{ id := "c:free" }]).1) _).mpr (by decide)

/-- C4: when no previous snapshot exists (never stored, or the read
fails and degrades to none), a successful run sends no notification at
all, still persists the new snapshot, and reports success. -/
theorem cold_start_no_notification :
    ∀ (env : MonitorEnv) (w : RunWorld) (kv : KVStore) (ms : List CatalogItem),
      w.fetchOutcome = .ok ms → ¬ ms = [] → w.putResult = .ok →
      (w.readPrevFails = true ∨ kv.models_data = none) →
      (runMonitoring env w kv).1.success = true ∧
      (runMonitoring env w kv).2.1.models_data =
        some { timestamp := w.now, totalModels := ms.length,
               freeModels := identifyFreeModels ms, allModels := ms } ∧
      ∀ t b c, MonitorEvent.notify t b c ∉ (runMonitoring env w kv).2.2 := by
  intro env w kv ms hf hne hput hprev
  have hprev0 : getPreviousModelsData w kv = none := by
    rcases hprev with h | h <;> simp [getPreviousModelsData, h]
  have hlen : ¬ ms.length = 0 := by
    simpa [List.length_eq_zero] using hne
  unfold runMonitoring
  rw [hf]
  simp only [fetchOpenRouterModels]
  rw [if_neg hlen, hput]
  simp [storeModelsData, hprev0, successResponse]

/-- Witness for C4 on a one-model catalog with an empty store. -/
theorem cold_start_no_notification_witness :
    (runMonitoring {} { fetchOutcome := .ok [{ id := "a:free" }], now := 7 } {}).1.success = true :=
  (cold_start_no_notification {} _ {} [{ id := "a:free" }] rfl (by decide) rfl (Or.inr rfl)).1

/-- C5 counterexample: with a stored trigger timestamp parsing to 0
(the epoch) and one minute on the clock, the code accepts the run (0 is
falsy, treated as never-run) while the spec algorithm (max with
negative infinity) refuses it. -/
theorem throttle_epoch_zero_counterexample :
    scheduledShouldRun 60000 (some 0) none 5 = true ∧
    specThrottleShouldRun 60000 (some 0) none 5 = false := by
  constructor <;> decide

/-- C5 amended: away from timestamps equal to 0 the throttle decision
agrees exactly with the spec algorithm (clamp to [1,60], maximum of
the two timestamps with absent treated as negative infinity, accept
iff elapsed at least the interval); and the three concrete scenarios
of the claim hold: 4 minutes elapsed refuses, 6 minutes accepts, no
prior run accepts, at interval 5. -/
theorem throttle_follows_spec_off_epoch :
    (∀ (now : Int) (t u : Option Int) (i : Int), ¬ t = some 0 → ¬ u = some 0 →
      scheduledShouldRun now t u i = specThrottleShouldRun now t u i) ∧
    scheduledShouldRun 1000000000000 (some (1000000000000 - 4 * 60000)) none 5 = false ∧
    scheduledShouldRun 1000000000000 (some (1000000000000 - 6 * 60000)) none 5 = true ∧
    scheduledShouldRun 1000000000000 none none 5 = true := by
  refine ⟨?_, by decide, by decide, by decide⟩
  intro now t u i ht hu
  cases t with
  | none =>
    cases u with
    | none => rfl
    | some b =>
      have hb : ¬ b = 0 := fun h => hu (by rw [h])
      simp [scheduledShouldRun, specThrottleShouldRun, computeLastRun, lastRunStep, hb]
  | some a =>
    have ha : ¬ a = 0 := fun h => ht (by rw [h])
    cases u with
    | none =>
      simp [scheduledShouldRun, specThrottleShouldRun, computeLastRun, lastRunStep, ha]
    | some b =>
      have hb : ¬ b = 0 := fun h => hu (by rw [h])
      by_cases hab : a < b
      · have hmax : max a b = b := max_eq_right (le_of_lt hab)
        simp [scheduledShouldRun, specThrottleShouldRun, computeLastRun, lastRunStep,
              ha, hb, hab, hmax]
      · have hmax : max a b = a := max_eq_left (le_of_not_lt hab)
        simp [scheduledShouldRun, specThrottleShouldRun, computeLastRun, lastRunStep,
              ha, hb, hab, hmax]

/-- Witness for the amended C5 at a concrete state. -/
theorem throttle_follows_spec_off_epoch_witness :
    scheduledShouldRun 0 none none 5 = specThrottleShouldRun 0 none none 5 :=
  throttle_follows_spec_off_epoch.1 0 none none 5 (by decide) (by decide)

/-- Shape of the variant catch block: it passes the store through
unchanged and appends at most one error notification to the events. -/
theorem monitorCatchV_shape :
    ∀ (env : MonitorEnv) (w : RunWorld) (msg : String) (kv : KVStore)
      (evs : List MonitorEvent),
      (monitorCatchV env w msg kv evs).kv = kv ∧
      ((monitorCatchV env w msg kv evs).events = evs ∨
       ∃ n, (monitorCatchV env w msg kv evs).events = evs ++ [MonitorEvent.notify
         "OpenRouter Monitor Error" ("Monitoring failed: " ++ msg) NotifCategory.error] ∧ n = msg) := by
  intro env w msg kv evs
  unfold monitorCatchV
  cases henv : env.barkUrl with
  | none => exact ⟨rfl, Or.inl rfl⟩
  | some u =>
    unfold sendBarkNotificationV
    cases hd : w.errorDelivery with
    | ok v => exact ⟨rfl, Or.inr ⟨msg, rfl, rfl⟩⟩
    | error e =>
      obtain ⟨st, tx⟩ := e
      exact ⟨rfl, Or.inr ⟨msg, rfl, rfl⟩⟩

/-- Events of the variant catch block keep their leading fetch
event. -/
theorem monitorCatchV_events_fetch :
    ∀ (env : MonitorEnv) (w : RunWorld) (msg : String) (kv : KVStore)
      (tl : List MonitorEvent),
      ∃ rest, (monitorCatchV env w msg kv (MonitorEvent.fetchModels :: tl)).events =
        MonitorEvent.fetchModels :: rest := by
  intro env w msg kv tl
  rcases (monitorCatchV_shape env w msg kv (MonitorEvent.fetchModels :: tl)).2 with h | ⟨n, h, -⟩
  · exact ⟨tl, h⟩
  · exact ⟨tl ++ [MonitorEvent.notify "OpenRouter Monitor Error"
      ("Monitoring failed: " ++ msg) NotifCategory.error], by rw [h]; simp⟩

/-- Every run of the variant monitor starts with the catalog fetch
event. -/
theorem runMonitoringV_starts_with_fetch :
    ∀ (env : MonitorEnv) (w : RunWorld) (kv : KVStore),
      ∃ rest, (runMonitoringV env w kv).events = MonitorEvent.fetchModels :: rest := by
  intro env w kv
  unfold runMonitoringV
  cases hf : fetchOpenRouterModels w.fetchOutcome with
  | error msg => apply monitorCatchV_events_fetch
  | ok ms =>
    dsimp only
    by_cases hlen : ms.length = 0
    · rw [if_pos hlen]
      apply monitorCatchV_events_fetch
    · rw [if_neg hlen]
      cases hput : w.putResult <;> simp only [storeModelsData]
      · cases hprev : getPreviousModelsData w kv <;> simp only []
        · exact ⟨_, rfl⟩
        · rcases hdet : detectAndNotifyChangesV env kv w _ (identifyFreeModels ms)
              with ⟨err, nevs⟩
          cases err with
          | none => exact ⟨_, rfl⟩
          | some msg => apply monitorCatchV_events_fetch
      · apply monitorCatchV_events_fetch
      · apply monitorCatchV_events_fetch

/-- Evaluation of the throttle decision at a known non-falsy
`lastRunTimestamp`. -/
theorem scheduledShouldRun_of_lastRun :
    ∀ (now l : Int) (t u : Option Int) (i : Int), computeLastRun t u = some l → ¬ l = 0 →
      scheduledShouldRun now t u i = decide (clampInterval i * 60 * 1000 ≤ now - l) := by
  intro now l t u i hc hl
  unfold scheduledShouldRun
  rw [hc]
  dsimp only
  rw [if_neg hl]

/-- A positive run timestamp within the interval makes the throttle
refuse, whether it is stored as the trigger or as the update
timestamp and whatever the other timestamp holds. -/
theorem shouldRun_false_of_recent :
    ∀ (now now2 : Int) (other : Option Int) (i : Int), 0 < now → now ≤ now2 →
      now2 - now < clampInterval i * 60 * 1000 →
      scheduledShouldRun now2 (some now) other i = false ∧
      scheduledShouldRun now2 other (some now) i = false := by
  intro now now2 other i h0 hle hlt
  have hnz : ¬ now = (0 : Int) := by omega
  constructor
  · cases other with
    | none =>
      rw [scheduledShouldRun_of_lastRun now2 now (some now) none i rfl hnz]
      simp only [decide_eq_false_iff_not]
      omega
    | some p =>
      by_cases hp : now = 0 ∨ now < p
      · have hpz : ¬ p = (0 : Int) := by
          rcases hp with h | h
          · exact absurd h hnz
          · omega
        have hc : computeLastRun (some now) (some p) = some p := by
          show (if now = 0 ∨ now < p then some p else some now) = some p
          rw [if_pos hp]
        rw [scheduledShouldRun_of_lastRun now2 p (some now) (some p) i hc hpz]
        simp only [decide_eq_false_iff_not]
        push_neg at hp
        omega
      · have hc : computeLastRun (some now) (some p) = some now := by
          show (if now = 0 ∨ now < p then some p else some now) = some now
          rw [if_neg hp]
        rw [scheduledShouldRun_of_lastRun now2 now (some now) (some p) i hc hnz]
        simp only [decide_eq_false_iff_not]
        omega
  · cases other with
    | none =>
      rw [scheduledShouldRun_of_lastRun now2 now none (some now) i rfl hnz]
      simp only [decide_eq_false_iff_not]
      omega
    | some p =>
      by_cases hp : p = 0 ∨ p < now
      · have hc : computeLastRun (some p) (some now) = some now := by
          show (if p = 0 ∨ p < now then some now else some p) = some now
          rw [if_pos hp]
        rw [scheduledShouldRun_of_lastRun now2 now (some p) (some now) i hc hnz]
        simp only [decide_eq_false_iff_not]
        omega
      · have hpz : ¬ p = (0 : Int) := by
          push_neg at hp
          exact hp.1
        have hc : computeLastRun (some p) (some now) = some p := by
          show (if p = 0 ∨ p < now then some now else some p) = some p
          rw [if_neg hp]
        rw [scheduledShouldRun_of_lastRun now2 p (some p) (some now) i hc hpz]
        simp only [decide_eq_false_iff_not]
        push_neg at hp
        omega

/-- C6: when the throttle accepts, the scheduled handler emits the
trigger-timestamp write strictly before the catalog fetch event, and a
second trigger that observes the written timestamp within the clamped
interval refuses its run. -/
theorem trigger_persisted_before_fetch :
    ∀ (envInterval : Option Int) (now : Int) (env : MonitorEnv) (w : RunWorld) (kv : KVStore),
      (scheduledShouldRun now kv.last_monitor_trigger kv.last_update
          (resolveIntervalMinutes envInterval kv.app_settings_interval) = true →
        ∃ rest, (scheduledRun envInterval now env w kv).2 =
          MonitorEvent.putTrigger now :: MonitorEvent.fetchModels :: rest) ∧
      (∀ now2 u2 i2, 0 < now → now ≤ now2 →
        now2 - now < clampInterval i2 * 60 * 1000 →
        scheduledShouldRun now2 (some now) u2 i2 = false) := by
  intro envInterval now env w kv
  constructor
  · intro hrun
    unfold scheduledRun
    simp only [hrun, if_true]
    rcases runMonitoringV_starts_with_fetch env w
        { kv with last_monitor_trigger := some now } with ⟨rest, hr⟩
    exact ⟨rest, by rw [hr]⟩
  · intro now2 u2 i2 h0 hle hlt
    exact (shouldRun_false_of_recent now now2 u2 i2 h0 hle hlt).1

/-- Witness for C6: an accepting scheduled run on an empty store. -/
theorem trigger_persisted_before_fetch_witness :
    ∃ rest, (scheduledRun none 1 {} { fetchOutcome := .ok [], now := 1 } {}).2 =
      MonitorEvent.putTrigger 1 :: MonitorEvent.fetchModels :: rest :=
  (trigger_persisted_before_fetch none 1 {} { fetchOutcome := .ok [], now := 1 } {}).1 (by decide)

/-- C7: a failed catalog fetch (non-success HTTP status or network
failure) makes the run report failure with the status inside the error
message, leaves the store untouched, and attempts an error
notification when a Bark target is configured. -/
theorem fetch_failure_aborts_run :
    ∀ (env : MonitorEnv) (w : RunWorld) (kv : KVStore),
      (∀ status statusText, w.fetchOutcome = .httpError status statusText →
        (runMonitoring env w kv).1.success = false ∧
        (∃ a b, (runMonitoring env w kv).1.error = some (a ++ toString status ++ b)) ∧
        (runMonitoring env w kv).2.1 = kv ∧
        ((env.barkUrl).isSome = true →
          ∃ t b c, MonitorEvent.notify t b c ∈ (runMonitoring env w kv).2.2)) ∧
      (∀ message, w.fetchOutcome = .networkError message →
        (runMonitoring env w kv).1.success = false ∧
        (runMonitoring env w kv).1.error = some message ∧
        (runMonitoring env w kv).2.1 = kv ∧
        ((env.barkUrl).isSome = true →
          ∃ t b c, MonitorEvent.notify t b c ∈ (runMonitoring env w kv).2.2)) := by
  intro env w kv
  constructor
  · intro status statusText hf
    have hrun : runMonitoring env w kv =
        (errorResponse ("OpenRouter API error: " ++ toString status ++ " " ++ statusText), kv,
         .fetchModels :: monitorErrorEvents env
           ("OpenRouter API error: " ++ toString status ++ " " ++ statusText)) := by
      unfold runMonitoring
      rw [hf]
      rfl
    rw [hrun]
    refine ⟨rfl, ⟨"OpenRouter API error: ", " " ++ statusText, by simp [errorResponse, String.append_assoc]⟩, rfl, ?_⟩
    intro hb
    rcases Option.isSome_iff_exists.mp hb with ⟨u, hu⟩
    refine ⟨"OpenRouter Monitor Error",
      "Monitoring failed: " ++ ("OpenRouter API error: " ++ toString status ++ " " ++ statusText),
      .error, ?_⟩
    simp [monitorErrorEvents, hu]
  · intro message hf
    have hrun : runMonitoring env w kv =
        (errorResponse message, kv, .fetchModels :: monitorErrorEvents env message) := by
      unfold runMonitoring
      rw [hf]
      rfl
    rw [hrun]
    refine ⟨rfl, rfl, rfl, ?_⟩
    intro hb
    rcases Option.isSome_iff_exists.mp hb with ⟨u, hu⟩
    refine ⟨"OpenRouter Monitor Error", "Monitoring failed: " ++ message, .error, ?_⟩
    simp [monitorErrorEvents, hu]

/-- Witness for C7 at HTTP 429. -/
theorem fetch_failure_aborts_run_witness :
    (runMonitoring { barkUrl := some "https://bark.example/k/" }
      { fetchOutcome := .httpError 429 "Too Many Requests", now := 0 } {}).1.success = false :=
  ((fetch_failure_aborts_run _ _ _).1 429 "Too Many Requests" rfl).1

/-- C9: any snapshot found in the store after a run either was already
stored before the run or satisfies the invariant: its free sequence is
the order-preserving filter of its full sequence by `isFree`, and its
total count is the length of the full sequence. -/
theorem persisted_snapshot_invariant :
    ∀ (env : MonitorEnv) (w : RunWorld) (kv : KVStore) (snap : Snapshot),
      (runMonitoring env w kv).2.1.models_data = some snap →
      kv.models_data = some snap ∨
      (snap.freeModels = snap.allModels.filter isFree ∧
       snap.totalModels = snap.allModels.length ∧
       snap.freeModels = identifyFreeModels snap.allModels) := by
  intro env w kv snap h
  unfold runMonitoring at h
  cases hf : w.fetchOutcome with
  | httpError status statusText => rw [hf] at h; simp only [fetchOpenRouterModels] at h; exact Or.inl h
  | networkError message => rw [hf] at h; simp only [fetchOpenRouterModels] at h; exact Or.inl h
  | ok ms =>
    rw [hf] at h
    simp only [fetchOpenRouterModels] at h
    by_cases hlen : ms.length = 0
    · rw [if_pos hlen] at h
      exact Or.inl h
    · rw [if_neg hlen] at h
      cases hput : w.putResult with
      | ok =>
        rw [hput] at h
        simp only [storeModelsData] at h
        rcases Option.some_inj.mp h with rfl
        exact Or.inr ⟨rfl, rfl, rfl⟩
      | failFirst msg =>
        rw [hput] at h
        simp only [storeModelsData] at h
        exact Or.inl h
      | failSecond msg =>
        rw [hput] at h
        simp only [storeModelsData] at h
        rcases Option.some_inj.mp h with rfl
        exact Or.inr ⟨rfl, rfl, rfl⟩

/-- Witness for C9 on a freshly persisted snapshot. -/
theorem persisted_snapshot_invariant_witness :
    ({} : KVStore).models_data = some sampleSnapshot ∨
    (sampleSnapshot.freeModels = sampleSnapshot.allModels.filter isFree ∧
     sampleSnapshot.totalModels = sampleSnapshot.allModels.length ∧
     sampleSnapshot.freeModels = identifyFreeModels sampleSnapshot.allModels) :=
  persisted_snapshot_invariant {} sampleRunWorld {} sampleSnapshot (by decide)

/-- C8 counterexample: in the variant monitor module (whose
`sendBarkNotification` rethrows a delivery failure), a failed change
notification after a successful snapshot write makes the run report
failure, not success; the snapshot stays persisted and the delivery is
attempted exactly once. -/
theorem notification_failure_counterexample :
    (runMonitoringV barkFailEnv barkFailWorld barkFailStore).response =
      some (errorResponse "Bark 推送失败: 500 Internal Server Error") ∧
    ((runMonitoringV barkFailEnv barkFailWorld barkFailStore).response.map
      (fun r => r.success)) = some false ∧
    (runMonitoringV barkFailEnv barkFailWorld barkFailStore).kv.models_data =
      some { timestamp := 100, totalModels := 1,
             freeModels := [{ id := "b:free" }], allModels := [{ id := "b:free" }] } ∧
    ((runMonitoringV barkFailEnv barkFailWorld barkFailStore).events.filter
      isUpdateNotify).length = 1 := by
  refine ⟨?_, ?_, ?_, ?_⟩ <;> decide

/-- C8 amended: when the snapshot write has succeeded and the
change-notification delivery fails, the failure is not retried and the
persisted snapshot is not rolled back, but the error propagates: the
run result reports failure (assuming the error notification itself is
deliverable or no environment Bark URL is set). -/
theorem notification_failure_aborts_without_rollback :
    ∀ (env : MonitorEnv) (w : RunWorld) (kv : KVStore) (ms : List CatalogItem)
      (prev : Snapshot) (status : ℕ) (statusText : String),
      w.fetchOutcome = .ok ms → ¬ ms = [] → w.putResult = .ok →
      w.readPrevFails = false → kv.models_data = some prev →
      (resolveBarkUrl env kv).isSome = true →
      w.changeDelivery = .error (status, statusText) →
      (¬ addedModels prev.freeModels (identifyFreeModels ms) = [] ∨
       ¬ removedModels prev.freeModels (identifyFreeModels ms) = []) →
      (env.barkUrl = none ∨ w.errorDelivery = .ok ()) →
      (runMonitoringV env w kv).response =
        some (errorResponse ("Bark 推送失败: " ++ toString status ++ " " ++ statusText)) ∧
      (runMonitoringV env w kv).kv.models_data =
        some { timestamp := w.now, totalModels := ms.length,
               freeModels := identifyFreeModels ms, allModels := ms } ∧
      ((runMonitoringV env w kv).events.filter isUpdateNotify).length = 1 := by
  intro env w kv ms prev status statusText hf hne hput hread hprevd hbark hdeliv hdiff herr
  have hprev0 : getPreviousModelsData w kv = some prev := by
    simp [getPreviousModelsData, hread, hprevd]
  have hlen : ¬ ms.length = 0 := by
    simpa [List.length_eq_zero] using hne
  obtain ⟨u, hu⟩ := Option.isSome_iff_exists.mp hbark
  have hcondb : (decide ((addedModels prev.freeModels (identifyFreeModels ms)).length > 0) ||
      decide ((removedModels prev.freeModels (identifyFreeModels ms)).length > 0)) = true := by
    rcases hdiff with h | h <;> simp [List.length_pos.mpr h]
  have hdet : detectAndNotifyChangesV env kv w prev.freeModels (identifyFreeModels ms) =
      (some ("Bark 推送失败: " ++ toString status ++ " " ++ statusText),
       [MonitorEvent.notify "OpenRouter免费模型更新"
         (changeMessageV (addedModels prev.freeModels (identifyFreeModels ms))
           (removedModels prev.freeModels (identifyFreeModels ms))) NotifCategory.update]) := by
    unfold detectAndNotifyChangesV
    dsimp only
    rw [if_pos hcondb]
    unfold sendChangeNotificationV
    rw [hu]
    unfold sendBarkNotificationV
    rw [hdeliv]
  have hrun : runMonitoringV env w kv =
      monitorCatchV env w ("Bark 推送失败: " ++ toString status ++ " " ++ statusText)
        { kv with models_data := some ⟨w.now, ms.length, identifyFreeModels ms, ms⟩,
                  last_update := some w.now }
        (MonitorEvent.fetchModels :: ([MonitorEvent.putModels, MonitorEvent.putLastUpdate] ++
          [MonitorEvent.notify "OpenRouter免费模型更新"
            (changeMessageV (addedModels prev.freeModels (identifyFreeModels ms))
              (removedModels prev.freeModels (identifyFreeModels ms)))
            NotifCategory.update])) := by
    unfold runMonitoringV
    rw [hf]
    dsimp only [fetchOpenRouterModels]
    rw [if_neg hlen, hput]
    dsimp only [storeModelsData]
    rw [hprev0]
    dsimp only
    rw [hdet]
  rcases herr with hb | hok
  · rw [hrun]
    unfold monitorCatchV
    rw [hb]
    exact ⟨rfl, rfl, rfl⟩
  · rw [hrun]
    unfold monitorCatchV
    cases henv : env.barkUrl with
    | none => exact ⟨rfl, rfl, rfl⟩
    | some v =>
      dsimp only
      rw [hok]
      dsimp only [sendBarkNotificationV]
      exact ⟨rfl, rfl, rfl⟩

/-- Witness for the amended C8 at the concrete failing delivery. -/
theorem notification_failure_aborts_witness :
    (runMonitoringV barkFailEnv barkFailWorld barkFailStore).response =
      some (errorResponse ("Bark 推送失败: " ++ toString (500 : ℕ) ++ " " ++ "Internal Server Error")) ∧
    (runMonitoringV barkFailEnv barkFailWorld barkFailStore).kv.models_data =
      some { timestamp := barkFailWorld.now, totalModels := [({ id := "b:free" } : CatalogItem)].length,
             freeModels := identifyFreeModels [{ id := "b:free" }],
             allModels := [{ id := "b:free" }] } ∧
    ((runMonitoringV barkFailEnv barkFailWorld barkFailStore).events.filter
      isUpdateNotify).length = 1 :=
  notification_failure_aborts_without_rollback barkFailEnv barkFailWorld barkFailStore
    [{ id := "b:free" }] barkFailSnapshot 500 "Internal Server Error"
    rfl (by decide) rfl rfl rfl (by decide) rfl (Or.inl (by decide)) (Or.inr rfl)

/-- The catch block produces the same response, thrown exception and
events whatever store value it is handed. -/
theorem monitorCatchV_kv_indep :
    ∀ (env : MonitorEnv) (w : RunWorld) (msg : String) (kv kv2 : KVStore)
      (evs : List MonitorEvent),
      (monitorCatchV env w msg kv2 evs).response = (monitorCatchV env w msg kv evs).response ∧
      (monitorCatchV env w msg kv2 evs).thrown = (monitorCatchV env w msg kv evs).thrown ∧
      (monitorCatchV env w msg kv2 evs).events = (monitorCatchV env w msg kv evs).events := by
  intro env w msg kv kv2 evs
  unfold monitorCatchV
  cases henv : env.barkUrl with
  | none => exact ⟨rfl, rfl, rfl⟩
  | some u =>
    cases hd : w.errorDelivery with
    | ok v =>
      dsimp only [sendBarkNotificationV]
      exact ⟨rfl, rfl, rfl⟩
    | error e =>
      obtain ⟨st, tx⟩ := e
      dsimp only [sendBarkNotificationV]
      exact ⟨rfl, rfl, rfl⟩

/-- The catch block never emits a trigger-timestamp write. -/
theorem monitorCatchV_no_trigger :
    ∀ (env : MonitorEnv) (w : RunWorld) (msg : String) (kv : KVStore)
      (evs : List MonitorEvent) (t : Int), MonitorEvent.putTrigger t ∉ evs →
      MonitorEvent.putTrigger t ∉ (monitorCatchV env w msg kv evs).events := by
  intro env w msg kv evs t hn
  rcases (monitorCatchV_shape env w msg kv evs).2 with h | ⟨n, h, -⟩ <;> rw [h]
  · exact hn
  · intro hmem
    rcases List.mem_append.mp hmem with h1 | h1
    · exact hn h1
    · simp at h1

/-- The variant change detector emits no event or one notify event. -/
theorem detectV_events_shape :
    ∀ (env : MonitorEnv) (kv : KVStore) (w : RunWorld) (a b : List CatalogItem),
      (detectAndNotifyChangesV env kv w a b).2 = [] ∨
      ∃ t bd c, (detectAndNotifyChangesV env kv w a b).2 = [MonitorEvent.notify t bd c] := by
  intro env kv w a b
  unfold detectAndNotifyChangesV
  dsimp only
  split
  · unfold sendChangeNotificationV
    cases hres : resolveBarkUrl env kv with
    | none => exact Or.inl rfl
    | some u =>
      unfold sendBarkNotificationV
      cases hd : w.changeDelivery with
      | ok v => exact Or.inr ⟨_, _, _, rfl⟩
      | error e =>
        obtain ⟨st, tx⟩ := e
        exact Or.inr ⟨_, _, _, rfl⟩
  · exact Or.inl rfl

/-- A successful variant run replaces the snapshot and the last-update
timestamp and touches nothing else in the store. -/
theorem runMonitoringV_persists :
    ∀ (env : MonitorEnv) (w : RunWorld) (kv : KVStore) (ms : List CatalogItem),
      w.fetchOutcome = .ok ms → ¬ ms = [] → w.putResult = .ok →
      (runMonitoringV env w kv).kv =
        { kv with models_data := some ⟨w.now, ms.length, identifyFreeModels ms, ms⟩,
                  last_update := some w.now } := by
  intro env w kv ms hf hne hput
  have hlen : ¬ ms.length = 0 := by
    simpa [List.length_eq_zero] using hne
  unfold runMonitoringV
  rw [hf]
  dsimp only [fetchOpenRouterModels]
  rw [if_neg hlen, hput]
  dsimp only [storeModelsData]
  cases hprev : getPreviousModelsData w kv
  case none => rfl
  case some prev =>
    dsimp only
    rcases hd : detectAndNotifyChangesV env kv w prev.freeModels (identifyFreeModels ms)
        with ⟨err, nevs⟩
    cases err with
    | none => rfl
    | some msg => exact (monitorCatchV_shape env w msg _ _).1

/-- No run of the variant monitor ever writes the trigger
timestamp. -/
theorem runMonitoringV_no_trigger :
    ∀ (env : MonitorEnv) (w : RunWorld) (kv : KVStore) (t : Int),
      MonitorEvent.putTrigger t ∉ (runMonitoringV env w kv).events := by
  intro env w kv t
  unfold runMonitoringV
  cases hf : fetchOpenRouterModels w.fetchOutcome with
  | error msg => exact monitorCatchV_no_trigger env w msg kv _ t (by simp)
  | ok ms =>
    dsimp only
    by_cases hlen : ms.length = 0
    · rw [if_pos hlen]
      exact monitorCatchV_no_trigger env w _ kv _ t (by simp)
    · rw [if_neg hlen]
      cases hput : w.putResult <;> dsimp only [storeModelsData]
      · -- both puts succeed
        cases hprev : getPreviousModelsData w kv
        · simp
        · rename_i prev
          dsimp only
          rcases hd : detectAndNotifyChangesV env kv w prev.freeModels (identifyFreeModels ms)
              with ⟨err, nevs⟩
          have hshape := detectV_events_shape env kv w prev.freeModels (identifyFreeModels ms)
          rw [hd] at hshape
          cases err with
          | none =>
            rcases hshape with h | ⟨a, b, c, h⟩ <;> subst h <;> simp
          | some msg =>
            apply monitorCatchV_no_trigger
            rcases hshape with h | ⟨a, b, c, h⟩ <;> subst h <;> simp
      · exact monitorCatchV_no_trigger env w _ kv _ t (by simp)
      · exact monitorCatchV_no_trigger env w _ _ _ t (by simp)

/-- The variant monitor leaves the stored trigger timestamp
unchanged. -/
theorem runMonitoringV_trigger_unchanged :
    ∀ (env : MonitorEnv) (w : RunWorld) (kv : KVStore),
      (runMonitoringV env w kv).kv.last_monitor_trigger = kv.last_monitor_trigger := by
  intro env w kv
  unfold runMonitoringV
  cases hf : fetchOpenRouterModels w.fetchOutcome with
  | error msg => rw [(monitorCatchV_shape env w msg kv _).1]
  | ok ms =>
    dsimp only
    by_cases hlen : ms.length = 0
    · rw [if_pos hlen, (monitorCatchV_shape env w _ kv _).1]
    · rw [if_neg hlen]
      cases hput : w.putResult <;> dsimp only [storeModelsData]
      · cases hprev : getPreviousModelsData w kv
        · rfl
        · rename_i prev
          dsimp only
          rcases hd : detectAndNotifyChangesV env kv w prev.freeModels (identifyFreeModels ms)
              with ⟨err, nevs⟩
          cases err with
          | none => rfl
          | some msg => rw [(monitorCatchV_shape env w msg _ _).1]
      · rw [(monitorCatchV_shape env w _ kv _).1]
      · rw [(monitorCatchV_shape env w _ _ _).1]

/-- The variant monitor's response, thrown exception and events do not
depend on the throttle timestamps of the store, only on its snapshot
and settings keys. -/
theorem runMonitoringV_throttle_indep :
    ∀ (env : MonitorEnv) (w : RunWorld) (kv kv2 : KVStore),
      kv2.models_data = kv.models_data →
      kv2.app_settings_barkUrl = kv.app_settings_barkUrl →
      (runMonitoringV env w kv2).response = (runMonitoringV env w kv).response ∧
      (runMonitoringV env w kv2).thrown = (runMonitoringV env w kv).thrown ∧
      (runMonitoringV env w kv2).events = (runMonitoringV env w kv).events := by
  intro env w kv kv2 h1 h2
  have hg : getPreviousModelsData w kv2 = getPreviousModelsData w kv := by
    unfold getPreviousModelsData
    rw [h1]
  have hdet : ∀ a b, detectAndNotifyChangesV env kv2 w a b = detectAndNotifyChangesV env kv w a b := by
    intro a b
    unfold detectAndNotifyChangesV sendChangeNotificationV resolveBarkUrl
    rw [h2]
  unfold runMonitoringV
  cases hf : fetchOpenRouterModels w.fetchOutcome with
  | error msg => exact monitorCatchV_kv_indep env w msg kv kv2 _
  | ok ms =>
    dsimp only
    by_cases hlen : ms.length = 0
    · rw [if_pos hlen, if_pos hlen]
      exact monitorCatchV_kv_indep env w _ kv kv2 _
    · rw [if_neg hlen, if_neg hlen]
      cases hput : w.putResult <;> dsimp only [storeModelsData]
      · rw [hg]
        cases hprev : getPreviousModelsData w kv
        · exact ⟨rfl, rfl, rfl⟩
        · rename_i prev
          dsimp only
          rw [hdet prev.freeModels (identifyFreeModels ms)]
          rcases hd : detectAndNotifyChangesV env kv w prev.freeModels (identifyFreeModels ms)
              with ⟨err, nevs⟩
          cases err with
          | none => exact ⟨rfl, rfl, rfl⟩
          | some msg =>
            dsimp only
            exact monitorCatchV_kv_indep env w msg _ _ _
      · exact monitorCatchV_kv_indep env w _ kv kv2 _
      · exact monitorCatchV_kv_indep env w _ _ _ _

/-- C10: the manual trigger path invokes the monitoring run directly:
the run is executed for every store state, its outcome is independent
of the throttle timestamps, it never writes the trigger timestamp, and
on success it sets only the last-update timestamp, which then makes a
scheduled trigger within the interval refuse. -/
theorem manual_run_bypasses_throttle :
    ∀ (env : MonitorEnv) (w : RunWorld) (kv : KVStore),
      fetchRouteMonitorRun "/api/monitor/run" env w kv = some (runMonitoringV env w kv) ∧
      (∀ kv2 : KVStore, kv2.models_data = kv.models_data →
        kv2.app_settings_barkUrl = kv.app_settings_barkUrl →
        (runMonitoringV env w kv2).response = (runMonitoringV env w kv).response ∧
        (runMonitoringV env w kv2).thrown = (runMonitoringV env w kv).thrown ∧
        (runMonitoringV env w kv2).events = (runMonitoringV env w kv).events) ∧
      (∀ t, MonitorEvent.putTrigger t ∉ (runMonitoringV env w kv).events) ∧
      (runMonitoringV env w kv).kv.last_monitor_trigger = kv.last_monitor_trigger ∧
      (∀ ms, w.fetchOutcome = .ok ms → ¬ ms = [] → w.putResult = .ok →
        (runMonitoringV env w kv).kv.last_update = some w.now ∧
        ∀ now2 t2 i2, 0 < w.now → w.now ≤ now2 →
          now2 - w.now < clampInterval i2 * 60 * 1000 →
          scheduledShouldRun now2 t2 (some w.now) i2 = false) := by
  intro env w kv
  refine ⟨?_, ?_, ?_, ?_, ?_⟩
  · unfold fetchRouteMonitorRun
    rw [if_pos rfl]
  · intro kv2 h1 h2
    exact runMonitoringV_throttle_indep env w kv kv2 h1 h2
  · intro t
    exact runMonitoringV_no_trigger env w kv t
  · exact runMonitoringV_trigger_unchanged env w kv
  · intro ms hf hne hput
    constructor
    · rw [runMonitoringV_persists env w kv ms hf hne hput]
    · intro now2 t2 i2 h0 hle hlt
      exact (shouldRun_false_of_recent w.now now2 t2 i2 h0 hle hlt).2

/-- Witness for C10: after a manual run at time 50, a scheduled
trigger 60 seconds later refuses. -/
theorem manual_run_bypasses_throttle_witness :
    scheduledShouldRun 60050 none (some 50) 3 = false :=
  ((manual_run_bypasses_throttle {} { fetchOutcome := .ok [{ id := "x:free" }], now := 50 }
      {}).2.2.2.2 [{ id := "x:free" }] rfl (by decide) rfl).2
    60050 none 3 (by decide) (by decide) (by decide)
